import Mathlib

/-!
Verification development for the `script-brasileiro` repository: two Python
scripts that fetch football match data over HTTP, flatten the JSON records,
and write them to a CSV file via pandas.

Shallow embedding notes:
  * JSON values decoded by `response.json()` are modelled by `JValue`;
    Python dict indexing `d[k]` is `JValue.get` (KeyError / TypeError become
    `Except.error`).
  * The first variant (`cbf-script.py`, class `CBFDataExporter`) and the
    second variant (`script.py`, `obter_jogos_brasileirao`) are both embedded.
  * HTTP transport is a collaborator: a run is parameterised by the responses
    the API would return.  File I/O is modelled by returning the list of
    (path, bytes) pairs the run writes.
  * pandas `DataFrame` construction from a list of dicts and `to_csv`
    (index=False, minimal quoting) are modelled by `mkDataFrame` / `toCsv`.
-/

/-- A decoded JSON value, as produced by `response.json()`. -/
inductive JValue where
  | null
  | str (s : String)
  | num (n : Int)
  | arr (xs : List JValue)
  | obj (fields : List (String × JValue))

/-- Python dict indexing `d[k]`: KeyError when the key is absent,
TypeError when the value is not a dict. -/
def JValue.get (v : JValue) (k : String) : Except String JValue :=
  match v with
  | .obj fs =>
    match fs.lookup k with
    | some x => .ok x
    | none => .error ("KeyError: " ++ k)
  | _ => .error ("TypeError: value is not subscriptable by " ++ k)

/-- Python `d.get(k, default)`: AttributeError when the value is not a dict. -/
def JValue.getD (v : JValue) (k : String) (d : JValue) : Except String JValue :=
  match v with
  | .obj fs => .ok ((fs.lookup k).getD d)
  | _ => .error "AttributeError: value has no attribute get"

/-- Iterating `for x in v` where a list is expected.  (Python would iterate
dict keys or string characters; neither case is exercised by this pipeline,
both scripts only ever iterate the decoded match list.) -/
def JValue.asList : JValue → Except String (List JValue)
  | .arr xs => .ok xs
  | _ => .error "TypeError: value is not iterable"

/-- Python slicing `v[:10]`: defined on strings and lists, TypeError
otherwise. -/
def JValue.sliceTen : JValue → Except String JValue
  | .str s => .ok (.str (s.take 10))
  | .arr xs => .ok (.arr (xs.take 10))
  | _ => .error "TypeError: value is not subscriptable by a slice"

/-- A Python `for` loop that builds a list, where the body may raise: the
first raise aborts the whole loop (and the surrounding function). -/
def mapExcept (f : α → Except String β) : List α → Except String (List β)
  | [] => .ok []
  | x :: xs =>
    match f x with
    | .error e => .error e
    | .ok y =>
      match mapExcept f xs with
      | .error e => .error e
      | .ok ys => .ok (y :: ys)

/-- `requests.Response.raise_for_status`: raises `HTTPError` exactly for
status codes in [400, 600). -/
def raise_for_status (status : Nat) : Except String Unit :=
  if 400 ≤ status ∧ status < 600 then
    .error ("HTTPError: " ++ toString status)
  else .ok ()

/-- One element of the competitions listing (`GET /competitions`): the
fields the Resolver reads (`name`, `series`, `season`, `id`). -/
structure Competition where
  name : String
  series : String
  season : String
  id : String
deriving DecidableEq, Repr

/-- `needle` occurs as a contiguous run at the start of `hay`. -/
def startsWithChars : List Char → List Char → Bool
  | [], _ => true
  | _ :: _, [] => false
  | a :: as, b :: bs => a = b && startsWithChars as bs

/-- `needle` occurs as a contiguous run somewhere in `hay`
(Python `hay.find(needle) != -1`). -/
def containsSubChars (needle : List Char) : List Char → Bool
  | [] => startsWithChars needle []
  | c :: cs => startsWithChars needle (c :: cs) || containsSubChars needle cs

/-- Python `hay.find(needle) != -1` on strings. -/
def containsSubstr (hay needle : String) : Bool :=
  containsSubChars needle.data hay.data

/-- Python `s.lower()` (character-wise; the keyword searched for is ASCII). -/
def lowerStr (s : String) : String := ⟨s.data.map Char.toLower⟩

/-- The Resolver's filter: name contains "brasileiro" after lowering,
series is "A", season equals `str(year)`. -/
def isBrasileiraoA (year : Nat) (c : Competition) : Bool :=
  containsSubstr (lowerStr c.name) "brasileiro" && c.series == "A"
    && c.season == toString year

/-- `CBFDataExporter.get_competition_id`: checks the HTTP status, scans the
competitions for the first one passing `isBrasileiraoA`, raises ValueError
when none does. -/
def get_competition_id (year : Nat) (status : Nat)
    (competitions : List Competition) : Except String String :=
  match raise_for_status status with
  | .error e => .error e
  | .ok _ =>
    match competitions.find? (isBrasileiraoA year) with
    | some c => .ok c.id
    | none => .error ("ValueError: Competition not found for year " ++ toString year)

/-- `CBFDataExporter.get_matches`: checks the HTTP status and returns the
decoded match list. -/
def get_matches (status : Nat) (body : List JValue) :
    Except String (List JValue) :=
  match raise_for_status status with
  | .error e => .error e
  | .ok _ => .ok body

/-- The loop body of `CBFDataExporter.process_matches`: builds one flat
record by direct key lookups, in source order. -/
def process_match (m : JValue) : Except String (List (String × JValue)) := do
  let data ← m.get "date"
  let rodada ← m.get "round"
  let home_team ← m.get "home_team"
  let time_casa ← home_team.get "name"
  let away_team ← m.get "away_team"
  let time_visitante ← away_team.get "name"
  let gols_casa ← m.get "home_score"
  let gols_visitante ← m.get "away_score"
  let stadium1 ← m.get "stadium"
  let estadio ← stadium1.get "name"
  let stadium2 ← m.get "stadium"
  let cidade ← stadium2.get "city"
  let stadium3 ← m.get "stadium"
  let estado ← stadium3.get "state"
  let referee ← m.get "referee"
  let arbitro ← referee.get "name"
  let publico ← m.get "attendance"
  let renda ← m.get "revenue"
  pure [("data", data), ("rodada", rodada), ("time_casa", time_casa),
    ("time_visitante", time_visitante), ("gols_casa", gols_casa),
    ("gols_visitante", gols_visitante), ("estadio", estadio),
    ("cidade", cidade), ("estado", estado), ("arbitro", arbitro),
    ("publico", publico), ("renda", renda)]

/-- The per-record loop of `process_matches`: an uncaught lookup failure in
any record aborts the whole loop. -/
def processAllMatches (ms : List JValue) :
    Except String (List (List (String × JValue))) :=
  mapExcept process_match ms

/-- The column names of the first variant's flat records. -/
def fields1 : List String :=
  ["data", "rodada", "time_casa", "time_visitante", "gols_casa",
   "gols_visitante", "estadio", "cidade", "estado", "arbitro",
   "publico", "renda"]

/-- The loop body of `obter_jogos_brasileirao`'s `for jogo in jogos` loop:
builds one flat record, taking the first 10 characters of the fixture date. -/
def processJogo (jogo : JValue) : Except String (List (String × JValue)) := do
  let fixture1 ← jogo.get "fixture"
  let dateV ← fixture1.get "date"
  let data ← dateV.sliceTen
  let teams1 ← jogo.get "teams"
  let home ← teams1.get "home"
  let time_casa ← home.get "name"
  let teams2 ← jogo.get "teams"
  let away ← teams2.get "away"
  let time_visitante ← away.get "name"
  let goals1 ← jogo.get "goals"
  let placar_casa ← goals1.get "home"
  let goals2 ← jogo.get "goals"
  let placar_visitante ← goals2.get "away"
  let fixture2 ← jogo.get "fixture"
  let venue ← fixture2.get "venue"
  let estadio ← venue.get "name"
  pure [("Data", data), ("Time Casa", time_casa),
    ("Time Visitante", time_visitante), ("Placar Casa", placar_casa),
    ("Placar Visitante", placar_visitante), ("Estádio", estadio)]

/-- The `for jogo in jogos` loop of `obter_jogos_brasileirao`. -/
def processAllJogos (jogos : List JValue) :
    Except String (List (List (String × JValue))) :=
  mapExcept processJogo jogos

/-- The column names of the second variant's flat records. -/
def fields2 : List String :=
  ["Data", "Time Casa", "Time Visitante", "Placar Casa",
   "Placar Visitante", "Estádio"]

/-- `pd.DataFrame(records)`: named columns plus one row of values per
record. -/
structure DataFrame where
  columns : List String
  rows : List (List JValue)

/-- Column inference of `pd.DataFrame(list_of_dicts)`: keys in order of
first appearance across the records.  Zero records yield zero columns. -/
def insertColumn (cols : List String) (k : String) : List String :=
  if cols.contains k then cols else cols ++ [k]

/-- All record keys in order of first appearance. -/
def collectColumns (recs : List (List (String × JValue))) : List String :=
  recs.foldl (fun cols r => r.foldl (fun cs kv => insertColumn cs kv.1) cols) []

/-- `pd.DataFrame(records)` for a list of dicts: a cell whose record lacks
the column is NaN (modelled `null`). -/
def mkDataFrame (recs : List (List (String × JValue))) : DataFrame :=
  let cols := collectColumns recs
  ⟨cols, recs.map (fun r => cols.map (fun c => (r.lookup c).getD .null))⟩

/-- A CSV field triggers quoting when it contains a separator, a quote or a
line break (csv.QUOTE_MINIMAL, what `to_csv` uses by default). -/
def needsQuoting (s : String) : Bool :=
  s.data.any (fun c => c = ',' || c = '"' || c = '\n' || c = '\r')

/-- Minimal CSV quoting: wrap in double quotes, doubling inner quotes, only
when required. -/
def quoteField (s : String) : String :=
  if needsQuoting s then "\"" ++ s.replace "\"" "\"\"" ++ "\"" else s

/-- How `to_csv` prints one cell: NaN prints empty, strings print with
minimal quoting, integers print in decimal.  (Nested containers would print
via Python repr; the claims never exercise that case, rendered abstractly.) -/
def renderCell : JValue → String
  | .null => ""
  | .str s => quoteField s
  | .num n => toString n
  | .arr _ => "<list>"
  | .obj _ => "<dict>"

/-- Comma-join of the cells of one row. -/
def joinSep (sep : String) : List String → String
  | [] => ""
  | [x] => x
  | x :: xs => x ++ sep ++ joinSep sep xs

/-- Concatenation of a list of strings (the successive lines of the file). -/
def concatAll : List String → String
  | [] => ""
  | x :: xs => x ++ concatAll xs

/-- `df.to_csv(path, index=False)`: the header row then one line per data
row, each line terminated by a newline.  An empty frame yields a single
empty line. -/
def toCsv (df : DataFrame) : String :=
  joinSep "," (df.columns.map quoteField) ++ "\n"
    ++ concatAll (df.rows.map (fun r => joinSep "," (r.map renderCell) ++ "\n"))

/-- UTF-8 encoding of one code point (as byte values). -/
def utf8EncodeCp (c : Nat) : List Nat :=
  if c < 0x80 then [c]
  else if c < 0x800 then [0xC0 + c / 64, 0x80 + c % 64]
  else if c < 0x10000 then
    [0xE0 + c / 4096, 0x80 + (c / 64) % 64, 0x80 + c % 64]
  else
    [0xF0 + c / 262144, 0x80 + (c / 4096) % 64, 0x80 + (c / 64) % 64,
     0x80 + c % 64]

/-- Writing a text file with `encoding="utf-8"`: the UTF-8 bytes of the
text. -/
def utf8Encode (s : String) : List Nat :=
  (s.data.map (fun c => utf8EncodeCp c.toNat)).flatten

/-- Writing a text file with `encoding="utf-8-sig"`: a byte-order mark
followed by the UTF-8 bytes of the text. -/
def utf8SigEncode (s : String) : List Nat :=
  0xEF :: 0xBB :: 0xBF :: utf8Encode s

/-- UTF-8 decoding back to code points; `none` on a malformed byte
sequence. -/
def utf8Decode : List Nat → Option (List Nat)
  | [] => some []
  | b :: bs =>
    if b < 0x80 then (utf8Decode bs).map (b :: ·)
    else if 0xC0 ≤ b ∧ b < 0xE0 then
      match bs with
      | b1 :: bs1 =>
        if 0x80 ≤ b1 ∧ b1 < 0xC0 then
          (utf8Decode bs1).map (((b - 0xC0) * 64 + (b1 - 0x80)) :: ·)
        else none
      | [] => none
    else if 0xE0 ≤ b ∧ b < 0xF0 then
      match bs with
      | b1 :: b2 :: bs2 =>
        if (0x80 ≤ b1 ∧ b1 < 0xC0) ∧ (0x80 ≤ b2 ∧ b2 < 0xC0) then
          (utf8Decode bs2).map
            (((b - 0xE0) * 4096 + (b1 - 0x80) * 64 + (b2 - 0x80)) :: ·)
        else none
      | _ => none
    else if 0xF0 ≤ b ∧ b < 0xF8 then
      match bs with
      | b1 :: b2 :: b3 :: bs3 =>
        if (0x80 ≤ b1 ∧ b1 < 0xC0) ∧ (0x80 ≤ b2 ∧ b2 < 0xC0)
            ∧ (0x80 ≤ b3 ∧ b3 < 0xC0) then
          (utf8Decode bs3).map
            (((b - 0xF0) * 262144 + (b1 - 0x80) * 4096 + (b2 - 0x80) * 64
              + (b3 - 0x80)) :: ·)
        else none
      | _ => none
    else none

/-- Reading a file back with `encoding="utf-8-sig"`: strip the byte-order
mark when present, then decode UTF-8. -/
def utf8SigDecode (bs : List Nat) : Option (List Nat) :=
  match bs with
  | 0xEF :: 0xBB :: 0xBF :: rest => utf8Decode rest
  | _ => utf8Decode bs

/-- `CBFDataExporter._log_export_summary`: its first statement to touch the
frame is `df['data']`, which raises KeyError when the column is absent (in
this pipeline exactly when there are zero records, since pandas infers the
columns from the records).  The aggregations themselves are log-only and
assumed well-typed, per the spec they are purely observational. -/
def log_export_summary (df : DataFrame) : Except String Unit :=
  if df.columns.contains "data" then .ok () else .error "KeyError: data"

/-- The API responses a first-variant run would observe: the competitions
listing and, per competition id, the matches listing, plus the timestamp
used for the output filename. -/
structure Env where
  compStatus : Nat
  competitions : List Competition
  matchesStatus : String → Nat
  matchesBody : String → List JValue
  timestamp : String

/-- Outcome of `export_season`: the returned filepath or the raised error,
plus the files the run wrote (path and bytes). -/
structure ExportOutcome where
  result : Except String String
  files : List (String × List Nat)

/-- `CBFDataExporter.export_season`: makedirs (no file), resolve the
competition id, fetch the matches, flatten them, write the CSV
(UTF-8, timestamped filename), then log the summary.  Every raise
propagates (the `except` clauses log and re-raise). -/
def export_season (year : Nat) (output_dir : String) (env : Env) :
    ExportOutcome :=
  match get_competition_id year env.compStatus env.competitions with
  | .error e => ⟨.error e, []⟩
  | .ok cid =>
    match get_matches (env.matchesStatus cid) (env.matchesBody cid) with
    | .error e => ⟨.error e, []⟩
    | .ok ms =>
      match processAllMatches ms with
      | .error e => ⟨.error e, []⟩
      | .ok recs =>
        let df := mkDataFrame recs
        let filename := "brasileirao_" ++ toString year ++ "_"
          ++ env.timestamp ++ ".csv"
        let filepath := output_dir ++ "/" ++ filename
        let content := utf8Encode (toCsv df)
        match log_export_summary df with
        | .error e => ⟨.error e, [(filepath, content)]⟩
        | .ok _ => ⟨.ok filepath, [(filepath, content)]⟩

/-- Outcome of a terminating `obter_jogos_brasileirao` run: the Python
return value (always bare `return` / fall-through, i.e. `None`) and the
files written. -/
structure RunOutcome where
  ret : Option JValue
  files : List (String × List Nat)

/-- `obter_jogos_brasileirao`: on a non-200 status prints an error and
returns `None` without writing; otherwise flattens
`response.json().get("response", [])` and writes the CSV with
`encoding="utf-8-sig"`.  An uncaught exception (e.g. a missing key) is an
`Except.error`. -/
def obter_jogos_brasileirao (ano : Nat) (status : Nat) (body : JValue) :
    Except String RunOutcome :=
  if status ≠ 200 then .ok ⟨none, []⟩
  else
    match body.getD "response" (.arr []) with
    | .error e => .error e
    | .ok jogosV =>
      match jogosV.asList with
      | .error e => .error e
      | .ok jogos =>
        match processAllJogos jogos with
        | .error e => .error e
        | .ok recs =>
          let df := mkDataFrame recs
          let nome := "jogos_brasileirao_" ++ toString ano ++ ".csv"
          .ok ⟨none, [(nome, utf8SigEncode (toCsv df))]⟩

/-- Split a character list at every occurrence of `sep` (the shape of the
groups a CSV reader recovers; always returns at least one group). -/
def splitChar (sep : Char) : List Char → List (List Char)
  | [] => [[]]
  | c :: cs =>
    if c = sep then [] :: splitChar sep cs
    else
      match splitChar sep cs with
      | [] => [[c]]
      | g :: gs => (c :: g) :: gs

/-- Reading the written CSV text back, for files with no quoted fields:
split into newline-terminated lines (dropping the trailing empty group the
final newline produces), then split each line at commas. -/
def parseCsvSimple (content : String) : List (List String) :=
  (if (splitChar '\n' content.data).getLast? = some []
    then (splitChar '\n' content.data).dropLast
    else splitChar '\n' content.data).map
    (fun l => (splitChar ',' l).map (fun cs => String.mk cs))

/-- A string that triggers neither quoting nor a line/field break: round
tripping through the CSV text is exact for these. -/
def simpleStr (s : String) : Bool :=
  s.data.all (fun c => c ≠ ',' && c ≠ '"' && c ≠ '\n' && c ≠ '\r')

/-! ## Helper lemmas about the loop combinator -/

theorem mapExcept_ok_length {f : α → Except String β} :
    ∀ {xs : List α} {ys : List β}, mapExcept f xs = .ok ys →
      ys.length = xs.length := by
  intro xs
  induction xs with
  | nil =>
    intro ys h
    simp only [mapExcept] at h
    cases h
    rfl
  | cons x xs ih =>
    intro ys h
    rw [mapExcept] at h
    split at h
    · cases h
    · split at h
      · cases h
      · cases h
        simp [ih (by assumption)]

theorem mapExcept_ok_get {f : α → Except String β} :
    ∀ {xs : List α} {ys : List β}, mapExcept f xs = .ok ys →
      ∀ i (hi : i < xs.length) (hi' : i < ys.length),
        f (xs.get ⟨i, hi⟩) = .ok (ys.get ⟨i, hi'⟩) := by
  intro xs
  induction xs with
  | nil =>
    intro ys h i hi
    exact absurd hi (by simp)
  | cons x xs ih =>
    intro ys h i hi hi'
    rw [mapExcept] at h
    split at h
    · cases h
    · split at h
      · cases h
      · cases h
        match i with
        | 0 => assumption
        | i + 1 =>
          exact ih (by assumption) i (by simpa using hi) (by simpa using hi')

theorem mapExcept_ok_mem {f : α → Except String β} :
    ∀ {xs : List α} {ys : List β}, mapExcept f xs = .ok ys →
      ∀ y ∈ ys, ∃ x ∈ xs, f x = .ok y := by
  intro xs
  induction xs with
  | nil =>
    intro ys h y hy
    simp only [mapExcept] at h
    cases h
    cases hy
  | cons x xs ih =>
    intro ys h y hy
    rw [mapExcept] at h
    split at h
    · cases h
    · split at h
      · cases h
      · cases h
        rcases List.mem_cons.mp hy with rfl | hy'
        · exact ⟨x, by simp, by assumption⟩
        · obtain ⟨x', hx', hfx'⟩ := ih (by assumption) y hy'
          exact ⟨x', by simp [hx'], hfx'⟩

theorem mapExcept_error_of_mem {f : α → Except String β} :
    ∀ {xs : List α}, (∃ x ∈ xs, ∃ e, f x = .error e) →
      ∃ e, mapExcept f xs = .error e := by
  intro xs
  induction xs with
  | nil =>
    rintro ⟨x, hx, -⟩
    cases hx
  | cons x xs ih =>
    rintro ⟨x', hx', e, hfx'⟩
    rw [mapExcept]
    rcases List.mem_cons.mp hx' with rfl | hx''
    · rw [hfx']
      exact ⟨e, rfl⟩
    · cases hfx : f x with
      | error e' => exact ⟨e', rfl⟩
      | ok y =>
        obtain ⟨e', he'⟩ := ih ⟨x', hx'', e, hfx'⟩
        rw [he']
        exact ⟨e', rfl⟩

/-! ## The shape of one flat record -/

theorem process_match_keys {m : JValue} {r : List (String × JValue)}
    (h : process_match m = .ok r) : r.map Prod.fst = fields1 := by
  unfold process_match at h
  simp only [bind, Except.bind, pure, Except.pure] at h
  repeat' split at h
  all_goals first
    | (cases h; rfl)
    | simp at h

theorem processJogo_keys {j : JValue} {r : List (String × JValue)}
    (h : processJogo j = .ok r) : r.map Prod.fst = fields2 := by
  unfold processJogo at h
  simp only [bind, Except.bind, pure, Except.pure] at h
  repeat' split at h
  all_goals first
    | (cases h; rfl)
    | simp at h

/-! ## Concrete inputs used by witnesses -/

/-- A well-formed raw match record in the first variant's shape. -/
def matchW : JValue := .obj [
  ("date", .str "2023-04-15"), ("round", .num 1),
  ("home_team", .obj [("name", .str "Flamengo")]),
  ("away_team", .obj [("name", .str "Palmeiras")]),
  ("home_score", .num 2), ("away_score", .num 1),
  ("stadium", .obj [("name", .str "Maracanã"),
    ("city", .str "Rio de Janeiro"), ("state", .str "RJ")]),
  ("referee", .obj [("name", .str "Anderson Daronco")]),
  ("attendance", .num 65000), ("revenue", .num 3500000)]

/-- The flat record `process_match` produces from `matchW`. -/
def recW1 : List (String × JValue) :=
  [("data", .str "2023-04-15"), ("rodada", .num 1),
   ("time_casa", .str "Flamengo"), ("time_visitante", .str "Palmeiras"),
   ("gols_casa", .num 2), ("gols_visitante", .num 1),
   ("estadio", .str "Maracanã"), ("cidade", .str "Rio de Janeiro"),
   ("estado", .str "RJ"), ("arbitro", .str "Anderson Daronco"),
   ("publico", .num 65000), ("renda", .num 3500000)]

/-- A well-formed raw fixture in the second variant's shape, with a
time-of-day portion in the date. -/
def jogoW : JValue := .obj [
  ("fixture", .obj [("date", .str "2023-04-15T16:00:00-03:00"),
    ("venue", .obj [("name", .str "Maracanã")])]),
  ("teams", .obj [("home", .obj [("name", .str "Flamengo")]),
    ("away", .obj [("name", .str "Palmeiras")])]),
  ("goals", .obj [("home", .num 2), ("away", .num 1)])]

/-- The flat record `processJogo` produces from `jogoW`. -/
def recW2 : List (String × JValue) :=
  [("Data", .str "2023-04-15"), ("Time Casa", .str "Flamengo"),
   ("Time Visitante", .str "Palmeiras"), ("Placar Casa", .num 2),
   ("Placar Visitante", .num 1), ("Estádio", .str "Maracanã")]

/-! ## Claim C1 -/

/-- C1: for every API response with N match records that the Mapper
accepts, it produces exactly N flat records, and each produced flat record
carries exactly the fixed field names — `fields1` for the first variant's
`process_matches` loop, `fields2` for the second variant's loop. -/
theorem mapper_count_and_fields :
    (∀ ms rs, processAllMatches ms = .ok rs →
      rs.length = ms.length ∧ ∀ r ∈ rs, r.map Prod.fst = fields1) ∧
    (∀ js rs, processAllJogos js = .ok rs →
      rs.length = js.length ∧ ∀ r ∈ rs, r.map Prod.fst = fields2) := by
  constructor
  · intro ms rs h
    refine ⟨mapExcept_ok_length h, fun r hr => ?_⟩
    obtain ⟨m, _, hpm⟩ := mapExcept_ok_mem h r hr
    exact process_match_keys hpm
  · intro js rs h
    refine ⟨mapExcept_ok_length h, fun r hr => ?_⟩
    obtain ⟨j, _, hpj⟩ := mapExcept_ok_mem h r hr
    exact processJogo_keys hpj

/-- C1 witness: one concrete well-formed record of each shape. -/
theorem mapper_count_and_fields_witness :
    ([recW1].length = [matchW].length
      ∧ ∀ r ∈ [recW1], r.map Prod.fst = fields1) ∧
    ([recW2].length = [jogoW].length
      ∧ ∀ r ∈ [recW2], r.map Prod.fst = fields2) :=
  ⟨mapper_count_and_fields.1 [matchW] [recW1] rfl,
   mapper_count_and_fields.2 [jogoW] [recW2] rfl⟩

/-! ## Claim C8 -/

/-- C8: both mapping loops preserve input order — when mapping succeeds,
the i-th flat record is exactly the one derived from the i-th raw record. -/
theorem mapper_preserves_order :
    (∀ ms rs, processAllMatches ms = .ok rs →
      ∀ i (hi : i < ms.length) (hi' : i < rs.length),
        process_match (ms.get ⟨i, hi⟩) = .ok (rs.get ⟨i, hi'⟩)) ∧
    (∀ js rs, processAllJogos js = .ok rs →
      ∀ i (hi : i < js.length) (hi' : i < rs.length),
        processJogo (js.get ⟨i, hi⟩) = .ok (rs.get ⟨i, hi'⟩)) :=
  ⟨fun _ _ h => mapExcept_ok_get h, fun _ _ h => mapExcept_ok_get h⟩

/-- C8 witness: index 0 of a concrete one-record run of each variant. -/
theorem mapper_preserves_order_witness :
    process_match ([matchW].get ⟨0, by decide⟩)
        = .ok ([recW1].get ⟨0, by decide⟩) ∧
    processJogo ([jogoW].get ⟨0, by decide⟩)
        = .ok ([recW2].get ⟨0, by decide⟩) :=
  ⟨mapper_preserves_order.1 [matchW] [recW1] rfl 0 (by decide) (by decide),
   mapper_preserves_order.2 [jogoW] [recW2] rfl 0 (by decide) (by decide)⟩

/-! ## Claim C10 -/

/-- C10: whenever `obter_jogos_brasileirao` returns (rather than raising),
its return value is `None`, on the failure path as on the success path; and
on a non-200 status it writes no file. -/
theorem run_returns_none :
    ∀ ano status body r, obter_jogos_brasileirao ano status body = .ok r →
      r.ret = none ∧ (status ≠ 200 → r.files = []) := by
  intro ano status body r h
  unfold obter_jogos_brasileirao at h
  split at h
  · cases h
    exact ⟨rfl, fun _ => rfl⟩
  · repeat' split at h
    all_goals first
      | (cases h; exact ⟨rfl, fun hne => absurd hne (by assumption)⟩)
      | simp at h

/-- C10 witness: a concrete non-200 run. -/
theorem run_returns_none_witness :
    (⟨none, []⟩ : RunOutcome).ret = none ∧
      (404 ≠ 200 → (⟨none, []⟩ : RunOutcome).files = []) :=
  run_returns_none 2023 404 .null ⟨none, []⟩ rfl

/-! ## Claim C9 -/

/-- C9: in the second variant the `Data` field is the first 10 characters
of the raw fixture date string (the calendar-date prefix, any time-of-day
part dropped); the first variant copies the raw `date` value unchanged. -/
theorem date_prefix_behavior :
    (∀ jogo fx r s, processJogo jogo = .ok r →
      jogo.get "fixture" = .ok fx → fx.get "date" = .ok (.str s) →
      r.lookup "Data" = some (.str (s.take 10))) ∧
    (∀ m r v, process_match m = .ok r → m.get "date" = .ok v →
      r.lookup "data" = some v) := by
  constructor
  · intro jogo fx r s h hfx hdate
    unfold processJogo at h
    simp only [bind, Except.bind, pure, Except.pure, hfx, hdate,
      JValue.sliceTen] at h
    repeat' split at h
    all_goals cases h
    all_goals simp [List.lookup]
  · intro m r v h hdate
    unfold process_match at h
    simp only [bind, Except.bind, pure, Except.pure, hdate] at h
    repeat' split at h
    all_goals cases h
    all_goals simp [List.lookup]

/-- C9 witness: a fixture date with a time-of-day suffix. -/
theorem date_prefix_behavior_witness :
    recW2.lookup "Data" = some (.str ("2023-04-15T16:00:00-03:00".take 10)) ∧
    recW1.lookup "data" = some (.str "2023-04-15") :=
  ⟨date_prefix_behavior.1 jogoW (.obj [("date", .str "2023-04-15T16:00:00-03:00"),
      ("venue", .obj [("name", .str "Maracanã")])]) recW2
      "2023-04-15T16:00:00-03:00" rfl rfl rfl,
   date_prefix_behavior.2 matchW recW1 (.str "2023-04-15") rfl rfl⟩

/-! ## Claim C3 -/

theorem find?_append_first {α} {p : α → Bool} :
    ∀ (l : List α) (c : α) (rest : List α), p c = true →
      (∀ x ∈ l, p x = false) → (l ++ c :: rest).find? p = some c := by
  intro l
  induction l with
  | nil =>
    intro c rest hc _
    exact List.find?_cons_of_pos _ hc
  | cons a l ih =>
    intro c rest hc hl
    have ha : p a = false := hl a (by simp)
    rw [List.cons_append, List.find?_cons_of_neg _ (by simp [ha])]
    exact ih c rest hc (fun x hx => hl x (by simp [hx]))

/-- C3: when the competitions listing succeeds, the Resolver returns the id
of the first competition whose lowered name contains "brasileiro", whose
series is "A" and whose season equals the requested year; it raises when no
competition qualifies; and between two competitions differing only in
season it selects the one whose season matches the requested year. -/
theorem resolver_first_match :
    (∀ year status comps, raise_for_status status = .ok () →
      ((∀ c ∈ comps, isBrasileiraoA year c = false) →
        ∃ e, get_competition_id year status comps = .error e) ∧
      (∀ l c rest, comps = l ++ c :: rest → isBrasileiraoA year c = true →
        (∀ c' ∈ l, isBrasileiraoA year c' = false) →
        get_competition_id year status comps = .ok c.id)) ∧
    get_competition_id 2023 200
      [⟨"Campeonato Brasileiro", "A", "2022", "id2022"⟩,
       ⟨"Campeonato Brasileiro", "A", "2023", "id2023"⟩] = .ok "id2023" := by
  constructor
  · intro year status comps hok
    constructor
    · intro hnone
      unfold get_competition_id
      rw [hok]
      have hfind : comps.find? (isBrasileiraoA year) = none :=
        List.find?_eq_none.mpr (fun c hc => by simp [hnone c hc])
      rw [hfind]
      exact ⟨_, rfl⟩
    · intro l c rest hcomps hc hl
      subst hcomps
      unfold get_competition_id
      rw [hok, find?_append_first l c rest hc hl]
  · rfl

/-- C3 witness: a listing with no qualifying competition raises, and a
listing with the same competition in two seasons resolves to the requested
one. -/
theorem resolver_first_match_witness :
    (∃ e, get_competition_id 2023 200
      [⟨"Copa do Nordeste", "A", "2023", "idx"⟩] = .error e) ∧
    get_competition_id 2023 200
      [⟨"Campeonato Brasileiro", "A", "2022", "id2022"⟩,
       ⟨"Campeonato Brasileiro", "A", "2023", "id2023"⟩] = .ok "id2023" :=
  ⟨((resolver_first_match.1 2023 200
      [⟨"Copa do Nordeste", "A", "2023", "idx"⟩] rfl).1
      (by decide)),
   resolver_first_match.2⟩

/-! ## Claim C2 -/

/-- C2: when the resolver and fetcher succeed but some fetched match record
fails its key lookups, the first variant's run aborts with that error before
the write step, and no CSV file (not even a partial one) is produced. -/
theorem missing_key_aborts_run :
    ∀ year dir env cid ms,
      get_competition_id year env.compStatus env.competitions = .ok cid →
      get_matches (env.matchesStatus cid) (env.matchesBody cid) = .ok ms →
      (∃ m ∈ ms, ∃ e, process_match m = .error e) →
      (∃ e, (export_season year dir env).result = .error e) ∧
        (export_season year dir env).files = [] := by
  intro year dir env cid ms h1 h2 hbad
  obtain ⟨e, he⟩ := mapExcept_error_of_mem hbad
  have he' : processAllMatches ms = .error e := he
  unfold export_season
  simp only [h1, h2, he']
  simp

/-- The environment for the C2 witness: a well-formed listing whose matches
endpoint returns one record with no keys at all. -/
def envC2 : Env :=
  ⟨200, [⟨"Campeonato Brasileiro", "A", "2023", "cid"⟩],
   fun _ => 200, fun _ => [.obj []], "20230101_000000"⟩

/-- C2 witness: the empty record lacks the `date` key, the run errors and
writes nothing. -/
theorem missing_key_aborts_run_witness :
    (∃ e, (export_season 2023 "exports" envC2).result = .error e) ∧
      (export_season 2023 "exports" envC2).files = [] :=
  missing_key_aborts_run 2023 "exports" envC2 "cid" [.obj []] rfl rfl
    ⟨.obj [], by simp, "KeyError: date", rfl⟩

/-! ## Claim C4 -/

/-- An environment whose matches endpoint answers 304 Not Modified with a
well-formed body. -/
def env304 : Env :=
  ⟨200, [⟨"Campeonato Brasileiro", "A", "2023", "cid"⟩],
   fun _ => 304, fun _ => [matchW], "20230101_000000"⟩

/-- C4 counterexample: 304 is not a success status, yet
`raise_for_status` only raises for [400, 600), so the first variant's run
proceeds all the way to the write step and a CSV file IS created. -/
theorem fetch_non_success_counterexample :
    env304.matchesStatus "cid" = 304 ∧
    (export_season 2023 "exports" env304).result
      = .ok "exports/brasileirao_2023_20230101_000000.csv" ∧
    (export_season 2023 "exports" env304).files.length = 1 :=
  ⟨rfl, rfl, rfl⟩

/-- An environment whose matches endpoint answers 404. -/
def env404 : Env :=
  ⟨200, [⟨"Campeonato Brasileiro", "A", "2023", "cid"⟩],
   fun _ => 404, fun _ => [matchW], "20230101_000000"⟩

/-- C4 (amended): in the first variant the matches fetch fails exactly for
statuses in [400, 600) — 404 included — and then the run aborts with no CSV
file; in the second variant any status other than 200 returns early and no
file is created.  (A non-success status outside [400, 600), e.g. 304, does
not fail the first variant's fetcher: see the counterexample.) -/
theorem fetch_failure_amended :
    (∀ year dir env cid,
      get_competition_id year env.compStatus env.competitions = .ok cid →
      400 ≤ env.matchesStatus cid → env.matchesStatus cid < 600 →
      (∃ e, (export_season year dir env).result = .error e) ∧
        (export_season year dir env).files = []) ∧
    (∀ ano status body, status ≠ 200 →
      obter_jogos_brasileirao ano status body = .ok ⟨none, []⟩) := by
  constructor
  · intro year dir env cid h1 h4 h6
    have hraise : raise_for_status (env.matchesStatus cid)
        = .error ("HTTPError: " ++ toString (env.matchesStatus cid)) := by
      unfold raise_for_status
      rw [if_pos ⟨h4, h6⟩]
    have hfetch : get_matches (env.matchesStatus cid) (env.matchesBody cid)
        = .error ("HTTPError: " ++ toString (env.matchesStatus cid)) := by
      unfold get_matches
      rw [hraise]
    unfold export_season
    simp only [h1, hfetch]
    simp
  · intro ano status body hne
    unfold obter_jogos_brasileirao
    rw [if_pos hne]

/-- C4 witness: a concrete 404 in each variant. -/
theorem fetch_failure_amended_witness :
    ((∃ e, (export_season 2023 "exports" env404).result = .error e) ∧
      (export_season 2023 "exports" env404).files = []) ∧
    obter_jogos_brasileirao 2023 404 .null = .ok ⟨none, []⟩ :=
  ⟨fetch_failure_amended.1 2023 "exports" env404 "cid" rfl (by decide)
      (by decide),
   fetch_failure_amended.2 2023 404 .null (by decide)⟩

/-! ## Claim C5 -/

/-- C5 counterexample: with zero matches the second variant still writes a
file, but its bytes are a byte-order mark plus a single empty line — not
the header row with the fixed column names. -/
theorem empty_header_counterexample :
    obter_jogos_brasileirao 2023 200 (.obj [("response", .arr [])])
      = .ok ⟨none, [("jogos_brasileirao_2023.csv", utf8SigEncode "\n")]⟩ ∧
    utf8SigEncode "\n" ≠ utf8SigEncode (joinSep "," fields2 ++ "\n") :=
  ⟨rfl, by decide⟩

/-- The environment for the C5 (first-variant) witness: a matches endpoint
returning zero records. -/
def envEmpty : Env :=
  ⟨200, [⟨"Campeonato Brasileiro", "A", "2023", "cid"⟩],
   fun _ => 200, fun _ => [], "20230101_000000"⟩

/-- C5 (amended): with zero matches a CSV file is still produced, but its
content is a single empty line with no column names, because pandas infers
the columns from the records and zero records yield zero columns.  In the
first variant the file is likewise written with content `"\n"` and the run
then fails in the summary step (`df['data']` raises KeyError). -/
theorem empty_export_amended :
    (∀ ano, obter_jogos_brasileirao ano 200 (.obj [("response", .arr [])])
      = .ok ⟨none, [("jogos_brasileirao_" ++ toString ano ++ ".csv",
          utf8SigEncode "\n")]⟩) ∧
    (∀ year dir env cid,
      get_competition_id year env.compStatus env.competitions = .ok cid →
      get_matches (env.matchesStatus cid) (env.matchesBody cid) = .ok [] →
      (export_season year dir env).files
        = [(dir ++ "/" ++ ("brasileirao_" ++ toString year ++ "_"
            ++ env.timestamp ++ ".csv"), utf8Encode "\n")] ∧
      ∃ e, (export_season year dir env).result = .error e) := by
  constructor
  · intro ano
    rfl
  · intro year dir env cid h1 h2
    unfold export_season
    simp only [h1, h2]
    exact ⟨rfl, ⟨_, rfl⟩⟩

/-- C5 witness: both variants at a concrete zero-match run. -/
theorem empty_export_amended_witness :
    obter_jogos_brasileirao 2023 200 (.obj [("response", .arr [])])
      = .ok ⟨none, [("jogos_brasileirao_" ++ toString 2023 ++ ".csv",
          utf8SigEncode "\n")]⟩ ∧
    ((export_season 2023 "exports" envEmpty).files
        = [("exports" ++ "/" ++ ("brasileirao_" ++ toString 2023 ++ "_"
            ++ envEmpty.timestamp ++ ".csv"), utf8Encode "\n")] ∧
      ∃ e, (export_season 2023 "exports" envEmpty).result = .error e) :=
  ⟨empty_export_amended.1 2023,
   empty_export_amended.2 2023 "exports" envEmpty "cid" rfl rfl⟩

/-! ## Claim C6 -/

/-- The example fixture of the spec, in the second variant's raw shape. -/
def jogoC6 : JValue := .obj [
  ("fixture", .obj [("date", .str "2023-04-15"),
    ("venue", .obj [("name", .str "Maracanã")])]),
  ("teams", .obj [("home", .obj [("name", .str "Flamengo")]),
    ("away", .obj [("name", .str "Palmeiras")])]),
  ("goals", .obj [("home", .num 2), ("away", .num 1)])]

/-- C6: the example fixture flattens to the expected record, and the
written CSV consists of the fixed header followed by exactly the data row
`2023-04-15,Flamengo,Palmeiras,2,1,Maracanã` in the fixed column order. -/
theorem example_row :
    processJogo jogoC6 = .ok recW2 ∧
    toCsv (mkDataFrame [recW2])
      = "Data,Time Casa,Time Visitante,Placar Casa,Placar Visitante,Estádio\n2023-04-15,Flamengo,Palmeiras,2,1,Maracanã\n" :=
  ⟨rfl, rfl⟩

/-! ## Claim C7: CSV text round trip and encoding -/

/-- Interleave `sep` between character groups (the char-level image of a
CSV line built by `joinSep`). -/
def joinChar (sep : Char) : List (List Char) → List Char
  | [] => []
  | [g] => g
  | g :: gs => g ++ sep :: joinChar sep gs

/-- The characters of one written CSV line for the cells `l`. -/
def lineOf (l : List String) : List Char :=
  joinChar ',' (l.map String.data)

theorem map_congr_mem {α β} (f g : α → β) :
    ∀ (l : List α), (∀ a ∈ l, f a = g a) → l.map f = l.map g := by
  intro l
  induction l with
  | nil => intro; rfl
  | cons a l ih =>
    intro h
    rw [List.map_cons, List.map_cons, h a (by simp),
      ih (fun x hx => h x (by simp [hx]))]

theorem map_id_mem {α} (f : α → α) :
    ∀ (l : List α), (∀ a ∈ l, f a = a) → l.map f = l := by
  intro l h
  rw [map_congr_mem f id l h, List.map_id]

theorem simpleStr_spec {s : String} (h : simpleStr s = true) :
    ∀ c ∈ s.data, c ≠ ',' ∧ c ≠ '"' ∧ c ≠ '\n' ∧ c ≠ '\r' := by
  intro c hc
  have hall := List.all_eq_true.mp h c hc
  simp at hall
  tauto

theorem quoteField_of_simple {s : String} (h : simpleStr s = true) :
    quoteField s = s := by
  unfold quoteField
  rw [if_neg]
  intro hq
  obtain ⟨c, hc, hcp⟩ := List.any_eq_true.mp hq
  have := simpleStr_spec h c hc
  simp at hcp
  tauto

theorem mem_joinChar {sep : Char} :
    ∀ (gs : List (List Char)) (c : Char),
      c ∈ joinChar sep gs → c = sep ∨ ∃ g ∈ gs, c ∈ g
  | [], c, hc => absurd hc (by simp [joinChar])
  | [g], c, hc => Or.inr ⟨g, by simp, by simpa [joinChar] using hc⟩
  | g :: g' :: gs, c, hc => by
    rw [show joinChar sep (g :: g' :: gs)
        = g ++ sep :: joinChar sep (g' :: gs) from rfl] at hc
    rcases List.mem_append.mp hc with h | h
    · exact Or.inr ⟨g, by simp, h⟩
    · rcases List.mem_cons.mp h with rfl | h'
      · exact Or.inl rfl
      · rcases mem_joinChar (g' :: gs) c h' with h'' | ⟨g'', hg'', hc''⟩
        · exact Or.inl h''
        · exact Or.inr ⟨g'', List.mem_cons_of_mem g hg'', hc''⟩

theorem splitChar_no_sep {sep : Char} :
    ∀ {cs : List Char}, (∀ c ∈ cs, c ≠ sep) → splitChar sep cs = [cs] := by
  intro cs
  induction cs with
  | nil => intro; rfl
  | cons c cs ih =>
    intro h
    rw [splitChar, if_neg (h c (by simp)),
      ih (fun x hx => h x (by simp [hx]))]

theorem splitChar_append {sep : Char} :
    ∀ (g rest : List Char), (∀ c ∈ g, c ≠ sep) →
      splitChar sep (g ++ sep :: rest) = g :: splitChar sep rest := by
  intro g
  induction g with
  | nil =>
    intro rest _
    simp [splitChar]
  | cons c g ih =>
    intro rest h
    rw [List.cons_append, splitChar, if_neg (h c (by simp)),
      ih rest (fun x hx => h x (by simp [hx]))]

theorem splitChar_joinChar {sep : Char} :
    ∀ (gs : List (List Char)), gs ≠ [] →
      (∀ g ∈ gs, ∀ c ∈ g, c ≠ sep) →
      splitChar sep (joinChar sep gs) = gs
  | [], h, _ => absurd rfl h
  | [g], _, hs => by
    rw [show joinChar sep [g] = g from rfl]
    exact splitChar_no_sep (hs g (by simp))
  | g :: g' :: gs, _, hs => by
    rw [show joinChar sep (g :: g' :: gs)
        = g ++ sep :: joinChar sep (g' :: gs) from rfl]
    rw [splitChar_append g _ (hs g (by simp))]
    rw [splitChar_joinChar (g' :: gs) (by simp)
      (fun x hx => hs x (List.mem_cons_of_mem g hx))]

theorem splitChar_lines :
    ∀ (ls : List (List Char)), (∀ l ∈ ls, ∀ c ∈ l, c ≠ '\n') →
      splitChar '\n' ((ls.map (fun l => l ++ ['\n'])).flatten) = ls ++ [[]] := by
  intro ls
  induction ls with
  | nil => intro; rfl
  | cons l ls ih =>
    intro h
    rw [List.map_cons, List.flatten_cons, List.append_assoc,
      List.singleton_append,
      splitChar_append l _ (h l (by simp)),
      ih (fun l' hl' => h l' (by simp [hl']))]
    rfl

theorem joinSep_comma_data :
    ∀ (l : List String), (joinSep "," l).data = joinChar ',' (l.map String.data)
  | [] => rfl
  | [x] => rfl
  | x :: y :: xs => by
    rw [show joinSep "," (x :: y :: xs) = x ++ "," ++ joinSep "," (y :: xs)
        from rfl]
    rw [String.data_append, String.data_append, joinSep_comma_data (y :: xs)]
    rw [show ("," : String).data = [','] from rfl]
    simp only [List.map_cons]
    rw [show joinChar ',' (x.data :: y.data :: List.map String.data xs)
        = x.data ++ ',' :: joinChar ',' (y.data :: List.map String.data xs)
        from rfl]
    simp [List.append_assoc]

theorem concatAll_data :
    ∀ (l : List String), (concatAll l).data = (l.map String.data).flatten
  | [] => rfl
  | x :: xs => by
    rw [show concatAll (x :: xs) = x ++ concatAll xs from rfl,
      String.data_append, concatAll_data xs, List.map_cons, List.flatten_cons]

theorem lineOf_no_newline {l : List String}
    (hs : ∀ s ∈ l, simpleStr s = true) : ∀ c ∈ lineOf l, c ≠ '\n' := by
  intro c hc
  rcases mem_joinChar _ c hc with rfl | ⟨g, hg, hcg⟩
  · decide
  · obtain ⟨s, hsl, rfl⟩ := List.mem_map.mp hg
    exact (simpleStr_spec (hs s hsl) c hcg).2.2.1

theorem line_roundtrip (l : List String) (hl : l ≠ [])
    (hs : ∀ s ∈ l, simpleStr s = true) :
    (splitChar ',' (lineOf l)).map (fun cs => String.mk cs) = l := by
  unfold lineOf
  rw [splitChar_joinChar (l.map String.data) (by simpa using hl)
    (fun g hg c hc => by
      obtain ⟨s, hsl, rfl⟩ := List.mem_map.mp hg
      exact (simpleStr_spec (hs s hsl) c hc).1)]
  rw [List.map_map]
  exact map_id_mem _ l (fun s _ => rfl)

theorem toCsv_data (cols : List String) (cells : List (List String))
    (hc : ∀ c ∈ cols, simpleStr c = true)
    (hr : ∀ r ∈ cells, ∀ s ∈ r, simpleStr s = true) :
    (toCsv ⟨cols, cells.map (fun r => r.map JValue.str)⟩).data
      = ((lineOf cols :: cells.map lineOf).map (fun l => l ++ ['\n'])).flatten := by
  have h1 : cols.map quoteField = cols :=
    map_id_mem _ _ (fun c hcc => quoteField_of_simple (hc c hcc))
  have hrows : (cells.map (fun r => r.map JValue.str)).map
      (fun r => joinSep "," (r.map renderCell) ++ "\n")
      = cells.map (fun r => joinSep "," r ++ "\n") := by
    rw [List.map_map]
    apply map_congr_mem
    intro r hrr
    simp only [Function.comp]
    have : (r.map JValue.str).map renderCell = r := by
      rw [List.map_map]
      exact map_id_mem _ _
        (fun s hs => quoteField_of_simple (hr r hrr s hs))
    rw [this]
  show (joinSep "," (cols.map quoteField) ++ "\n"
      ++ concatAll ((cells.map (fun r => r.map JValue.str)).map
        (fun r => joinSep "," (r.map renderCell) ++ "\n"))).data = _
  rw [h1, hrows, String.data_append, String.data_append, joinSep_comma_data,
    concatAll_data, List.map_map]
  rw [show ("\n" : String).data = ['\n'] from rfl]
  have hinner : cells.map (String.data ∘ fun r => joinSep "," r ++ "\n")
      = cells.map (fun r => lineOf r ++ ['\n']) := by
    apply map_congr_mem
    intro r _
    simp only [Function.comp]
    rw [String.data_append, joinSep_comma_data,
      show ("\n" : String).data = ['\n'] from rfl]
    rfl
  rw [hinner, List.map_cons, List.flatten_cons]
  simp only [lineOf, Function.comp, List.append_assoc, List.singleton_append]
  rw [List.map_map]
  rfl

/-- C7: (i) for every table of line-break-, quote- and comma-free field
values — which covers simple ASCII team names — reading the written CSV
back yields exactly the header and the original values; (ii) the UTF-8
bytes written for "Maracanã" decode back to the same characters; (iii) the
same with the UTF-8 byte-order-mark encoding the second variant uses. -/
theorem csv_roundtrip_and_encoding :
    (∀ cols cells, cols ≠ [] → (∀ c ∈ cols, simpleStr c = true) →
      (∀ r ∈ cells, r ≠ [] ∧ ∀ s ∈ r, simpleStr s = true) →
      parseCsvSimple (toCsv ⟨cols, cells.map (fun r => r.map JValue.str)⟩)
        = cols :: cells) ∧
    utf8Decode (utf8Encode "Maracanã")
      = some ("Maracanã".data.map Char.toNat) ∧
    utf8SigDecode (utf8SigEncode "Maracanã")
      = some ("Maracanã".data.map Char.toNat) := by
  refine ⟨?_, by decide, by decide⟩
  intro cols cells hcols hc hr
  have hno : ∀ l ∈ (lineOf cols :: cells.map lineOf), ∀ c ∈ l, c ≠ '\n' := by
    intro l hl
    rcases List.mem_cons.mp hl with rfl | hl'
    · exact lineOf_no_newline hc
    · obtain ⟨r, hrr, rfl⟩ := List.mem_map.mp hl'
      exact lineOf_no_newline (fun s hs => (hr r hrr).2 s hs)
  unfold parseCsvSimple
  rw [toCsv_data cols cells hc (fun r hrr => (hr r hrr).2),
    splitChar_lines _ hno, List.getLast?_concat, if_pos rfl,
    List.dropLast_concat, List.map_cons, line_roundtrip cols hcols hc,
    List.map_map]
  congr 1
  exact map_id_mem _ _ (fun r hrr =>
    line_roundtrip r (hr r hrr).1 (fun s hs => (hr r hrr).2 s hs))

/-- C7 witness: the example table, with a non-ASCII stadium name. -/
theorem csv_roundtrip_and_encoding_witness :
    parseCsvSimple (toCsv ⟨fields2,
        [["2023-04-15", "Flamengo", "Palmeiras", "2", "1", "Maracanã"]].map
          (fun r => r.map JValue.str)⟩)
      = fields2
        :: [["2023-04-15", "Flamengo", "Palmeiras", "2", "1", "Maracanã"]] :=
  csv_roundtrip_and_encoding.1 fields2
    [["2023-04-15", "Flamengo", "Palmeiras", "2", "1", "Maracanã"]]
    (by decide) (by decide) (by decide)
